import Mathlib

/-!
# Threshold event monitor of phosphor-sel-logger

A shallow embedding of `include/threshold_event_monitor.hpp`: the callback
`thresholdEventMatcherCallback` that turns a `PropertiesChanged` signal of a
sensor threshold interface into an IPMI SEL record.

The callback is a function from the static set `assertedEvents` and the
incoming message to the new set and the list of the effects it performed, in
program order: text written to `std::cerr`, method calls made on the bus
connection, and calls of `selAddSystemRecord`.

Bytes (`uint8_t`) are natural numbers reduced modulo 256 where they are stored.
The type `D` stands for `double`; the callback only moves such values around,
so it is a parameter of the development.
-/

namespace SelLogger

/-! ## Constants and external declarations -/

/-- The enumeration `thresholdEventOffsets` (lines 21-27). -/
inductive thresholdEventOffsets where
  | lowerNonCritGoingLow
  | lowerCritGoingLow
  | upperNonCritGoingHigh
  | upperCritGoingHigh
  deriving DecidableEq, Repr

/-- The underlying `uint8_t` value of an enumerator, as `static_cast<uint8_t>` gives it. -/
def thresholdEventOffsets.toUInt8 : thresholdEventOffsets → Nat
  | .lowerNonCritGoingLow => 0x00
  | .lowerCritGoingLow => 0x02
  | .upperNonCritGoingHigh => 0x07
  | .upperCritGoingHigh => 0x09

/-- Line 29: `(1 << 6)` stored in a `uint8_t`. -/
def thresholdEventDataTriggerReadingByte2 : Nat := (1 <<< 6) % 256

/-- Line 30: `(1 << 4)` stored in a `uint8_t`. -/
def thresholdEventDataTriggerReadingByte3 : Nat := (1 <<< 4) % 256

/-- Modelled from the spec: the constant `selEvtDataMaxSize` is declared in
`sel_logger.hpp`, which is not among the sources; the spec fixes the event
payload as a 3-byte sequence (and the comment on line 41 says three bytes). -/
def selEvtDataMaxSize : Nat := 3

/-- What the callback uses from headers that are not among the sources
(`sensorutils.hpp`, `sel_logger.hpp`, the C++ library), taken as parameters.

* `getScaledIPMIValue value max min` is `ipmi::getScaledIPMIValue`, which
  yields an 8-bit unsigned value; the result `.error what` stands for a thrown
  `std::runtime_error` with that message.
* `to_string` is `std::to_string` on `double`.
* `selBMCGenID` is the generator id constant passed to `selAddSystemRecord`. -/
structure Extern (D : Type) where
  getScaledIPMIValue : D → D → D → Except String (Fin 256)
  to_string : D → String
  selBMCGenID : Nat

/-! ## Messages, the bus connection, effects -/

/-- The parts of the incoming `sdbusplus::message::message` the callback reads:
`get_sender()`, `get_path()`, the interface name read from the body, and the
first entry of the `propertiesChanged` map: its key, and what
`get_if<bool>` finds in its value (`none` for a null pointer). The message is
one whose body `msg.read` could read and whose map has an entry. -/
structure Message where
  sender : String
  path : String
  thresholdInterface : String
  event : String
  value : Option Bool
  deriving DecidableEq, Repr

/-- A method call message built with `conn->new_method_call` and `append`. -/
structure MethodCall where
  destination : String
  path : String
  interface : String
  method : String
  args : List String
  deriving DecidableEq, Repr

/-- The body of a method reply: a dictionary of properties (what `GetAll`
answers) or a single variant (what `Get` answers). -/
inductive Reply (D : Type) where
  | dict (m : List (String × D))
  | variant (v : D)

/-- The bus connection as the callback sees it: `conn->call` either yields a
reply or throws `sdbusplus::exception_t` (`none`). -/
abbrev Connection (D : Type) := MethodCall → Option (Reply D)

/-- The arguments of one call of `selAddSystemRecord` (lines 193-194): the
record handed to the log writer. -/
structure SelRecord where
  message : String
  path : String
  eventData : List Nat
  assert : Bool
  genId : Nat
  deriving DecidableEq, Repr

/-- The observable actions of the callback. -/
inductive Effect where
  | cerr (text : String)
  | call (m : MethodCall)
  | selAddSystemRecord (r : SelRecord)
  deriving DecidableEq, Repr

/-- The method calls made on the connection, in order. -/
def calls : List Effect → List MethodCall
  | [] => []
  | Effect.call m :: es => m :: calls es
  | _ :: es => calls es

/-- The records handed to the log writer, in order. -/
def records : List Effect → List SelRecord
  | [] => []
  | Effect.selAddSystemRecord r :: es => r :: records es
  | _ :: es => records es

/-- The key type of the static set `assertedEvents`: `std::pair<path, event>`. -/
abbrev PathAndEvent := String × String

/-- The static `boost::container::flat_set` of line 39, as a finite set. -/
abbrev AssertedEvents := Finset PathAndEvent

/-! ## Helpers for the library calls in the callback -/

/-- The call `flat_map::operator[]` on the reply of `GetAll` followed by
`VariantToDoubleVisitor`: the value stored under the key, and the
value-initialised `double` when the key is absent. -/
def lookupDouble {D : Type} [Zero D] (m : List (String × D)) (key : String) : D :=
  match m.find? (fun kv => kv.1 == key) with
  | some kv => kv.2
  | none => 0

/-- Lines 148-153 on character lists: remove the first occurrence of `pat`
(`find` then `erase(pos, pat.length())`), or nothing when it does not occur. -/
def eraseFirstChars (pat : List Char) : List Char → List Char
  | [] => []
  | c :: cs =>
    if pat.isPrefixOf (c :: cs) then (c :: cs).drop pat.length
    else c :: eraseFirstChars pat cs

/-- The threshold property name: the event name without its first "Alarm". -/
def eraseAlarm (event : String) : String :=
  String.mk (eraseFirstChars "Alarm".data event.data)

/-- Lines 184-186 on character lists: drop everything up to and including the
last `/`; a path without `/` is kept whole (`npos + 1` wraps to 0). -/
def afterLastSlash : List Char → List Char
  | [] => []
  | c :: cs =>
    if '/' ∈ cs then afterLastSlash cs
    else if c = '/' then cs
    else c :: cs

/-- The short sensor name used in the journal message. -/
def sensorName (path : String) : String :=
  String.mk (afterLastSlash path.data)

/-- Lines 110-113: the `GetAll` call for the sensor value interface (Read 1). -/
def getSensorValue (msg : Message) : MethodCall :=
  { destination := msg.sender, path := msg.path,
    interface := "org.freedesktop.DBus.Properties", method := "GetAll",
    args := ["xyz.openbmc_project.Sensor.Value"] }

/-- Lines 154-157: the `Get` call for the threshold property (Read 2). -/
def getThreshold (msg : Message) : MethodCall :=
  { destination := msg.sender, path := msg.path,
    interface := "org.freedesktop.DBus.Properties", method := "Get",
    args := [msg.thresholdInterface, eraseAlarm msg.event] }

/-- Lines 117-128: `conn->call(getSensorValue)` and `read(sensorValue)`; `none`
when either throws `sdbusplus::exception_t` (a reply that is not a dictionary
cannot be read into the map). -/
def readSensorValue {D : Type} (conn : Connection D) (msg : Message) :
    Option (List (String × D)) :=
  match conn (getSensorValue msg) with
  | some (.dict m) => some m
  | _ => none

/-- Lines 159-170: `conn->call(getThreshold)` and `read(thresholdValue)`; `none`
when either throws `sdbusplus::exception_t`. -/
def readThreshold {D : Type} (conn : Connection D) (msg : Message) : Option D :=
  match conn (getThreshold msg) with
  | some (.variant v) => some v
  | _ => none

/-! ## The callback -/

/-- Lines 60-81: the check of `assertedEvents`. For an assert the key is
inserted and the event is logged only if the insertion took place; for a
deassert the key is erased and the event is logged only if something was
erased. Returns the new set and whether the callback goes on. -/
def dedupStep (assertedEvents : AssertedEvents) (pathAndEvent : PathAndEvent)
    (assert : Bool) : AssertedEvents × Bool :=
  if assert then
    if pathAndEvent ∈ assertedEvents then (assertedEvents, false)
    else (insert pathAndEvent assertedEvents, true)
  else
    if pathAndEvent ∈ assertedEvents then (assertedEvents.erase pathAndEvent, true)
    else (assertedEvents, false)

/-- Lines 42 and 83-107: byte 0 of the event data. The vector starts as all
`0xFF`; one of the four names overwrites byte 0 with its offset, any other
name leaves it; then the two trigger bits are or-ed in. -/
def eventDataByte0 (event : String) : Nat :=
  let init : Nat := 0xFF
  let b :=
    if event = "CriticalAlarmLow" then thresholdEventOffsets.lowerCritGoingLow.toUInt8
    else if event = "WarningAlarmLow" then thresholdEventOffsets.lowerNonCritGoingLow.toUInt8
    else if event = "WarningAlarmHigh" then thresholdEventOffsets.upperNonCritGoingHigh.toUInt8
    else if event = "CriticalAlarmHigh" then thresholdEventOffsets.upperCritGoingHigh.toUInt8
    else init
  (b ||| (thresholdEventDataTriggerReadingByte2 ||| thresholdEventDataTriggerReadingByte3)) % 256

/-- Lines 135-143 and 173-181: a call of `getScaledIPMIValue` inside
`try`/`catch (std::runtime_error &)`: the byte to store and what is written to
`std::cerr`. -/
def scaledByte {D : Type} (ext : Extern D) (value max min : D) : Nat × List Effect :=
  match ext.getScaledIPMIValue value max min with
  | .ok b => (b.val, [])
  | .error what => (0xFF, [Effect.cerr what])

/-- Lines 183-191: the journal message. -/
def journalMsg {D : Type} (ext : Extern D) (msg : Message) (assert : Bool)
    (sensorVal thresholdVal : D) : String :=
  sensorName msg.path ++ (if assert then " asserted " else " deasserted ") ++ msg.event ++
    ". Reading=" ++ ext.to_string sensorVal ++ " Threshold=" ++ ext.to_string thresholdVal

/-- Lines 83-194: the callback after the check of `assertedEvents`, for a
message that is to be logged. Returns the effects in program order. -/
def logThresholdEvent {D : Type} [Zero D] (ext : Extern D) (conn : Connection D)
    (msg : Message) (assert : Bool) : List Effect :=
  let eventData : List Nat := List.replicate selEvtDataMaxSize 0xFF
  let eventData := eventData.set 0 (eventDataByte0 msg.event)
  match readSensorValue conn msg with
  | none =>
    [Effect.call (getSensorValue msg),
     Effect.cerr ("error getting sensor value from " ++ msg.path ++ "\n")]
  | some sensorValue =>
    let max := lookupDouble sensorValue "MaxValue"
    let min := lookupDouble sensorValue "MinValue"
    let sensorVal := lookupDouble sensorValue "Value"
    let s1 := scaledByte ext sensorVal max min
    let eventData := eventData.set 1 s1.1
    match readThreshold conn msg with
    | none =>
      [Effect.call (getSensorValue msg)] ++ s1.2 ++
        [Effect.call (getThreshold msg),
         Effect.cerr ("error getting sensor threshold from " ++ msg.path ++ "\n")]
    | some thresholdVal =>
      let s2 := scaledByte ext thresholdVal max min
      let eventData := eventData.set 2 s2.1
      [Effect.call (getSensorValue msg)] ++ s1.2 ++ [Effect.call (getThreshold msg)] ++ s2.2 ++
        [Effect.selAddSystemRecord
          { message := journalMsg ext msg assert sensorVal thresholdVal, path := msg.path,
            eventData := eventData, assert := assert, genId := ext.selBMCGenID }]

/-- The lambda `thresholdEventMatcherCallback` (lines 35-195): from the static
set and the message to the new set and the effects performed. -/
def thresholdEventMatcherCallback {D : Type} [Zero D] (ext : Extern D) (conn : Connection D)
    (assertedEvents : AssertedEvents) (msg : Message) : AssertedEvents × List Effect :=
  match msg.value with
  | none => (assertedEvents, [Effect.cerr "threshold event direction has invalid type\n"])
  | some assert =>
    let r := dedupStep assertedEvents (msg.path, msg.event) assert
    if r.2 then (r.1, logThresholdEvent ext conn msg assert)
    else (r.1, [])

/-! ## Sequences of notifications -/

/-- The identity of a notification: the key the callback builds on line 61. -/
def Message.pathAndEvent (msg : Message) : PathAndEvent := (msg.path, msg.event)

/-- The callback invoked once per notification, in order, each with the bus as
it answers at that time. Returns the final set and, per notification, the
effects of its callback. -/
def run {D : Type} [Zero D] (ext : Extern D) :
    AssertedEvents → List (Message × Connection D) → AssertedEvents × List (Message × List Effect)
  | assertedEvents, [] => (assertedEvents, [])
  | assertedEvents, (msg, conn) :: rest =>
    let r := thresholdEventMatcherCallback ext conn assertedEvents msg
    let rr := run ext r.1 rest
    (rr.1, (msg, r.2) :: rr.2)

/-- The value of the most recent boolean-valued notification for the identity
`id` in a sequence given oldest first; `none` when there is none. -/
def lastAssertFlag (id : PathAndEvent) : List Message → Option Bool
  | [] => none
  | msg :: rest =>
    match lastAssertFlag id rest with
    | some b => some b
    | none => if msg.pathAndEvent = id then msg.value else none

/-- Modelled from the spec: `ipmi::getScaledIPMIValue` is defined in
`sensorutils.hpp`, which is not among the sources. Section 4.1 of the spec gives
`scale(value, min, max)`: it fails on a zero-width range and otherwise is
`clamp(round((value - min) / (max - min) * 255), 0, 255)`. The `float64`
arguments are taken as exact rationals. -/
def scale (value min max : ℚ) : Except String Nat :=
  if max = min then .error "DegenerateRangeError"
  else .ok (Int.toNat (Max.max 0 (Min.min 255 (round ((value - min) / (max - min) * 255)))))

/-! ## Sample inputs -/

/-- A scaler over integers for concrete runs: fails on a zero-width range. -/
def sampleExtern : Extern Int :=
  { getScaledIPMIValue := fun value max min =>
      if max = min then .error "Illegal sensor attributes"
      else .ok (Fin.ofNat (Int.toNat ((value - min) * 255 / (max - min))))
    to_string := fun v => toString v
    selBMCGenID := 0x20 }

/-- A bus that answers both reads. -/
def sampleConn : Connection Int := fun m =>
  if m.method = "GetAll" then some (.dict [("Value", 75), ("MinValue", 0), ("MaxValue", 100)])
  else some (.variant 70)

/-- A bus on which every call throws. -/
def deadConn : Connection Int := fun _ => none

/-- A bus that answers `GetAll` and throws on `Get`. -/
def noThresholdConn : Connection Int := fun m =>
  if m.method = "GetAll" then some (.dict [("Value", 75), ("MinValue", 0), ("MaxValue", 100)])
  else none

/-- A bus whose sensor reports a zero-width range. -/
def flatRangeConn : Connection Int := fun m =>
  if m.method = "GetAll" then some (.dict [("Value", 75), ("MinValue", 0), ("MaxValue", 0)])
  else some (.variant 70)

/-- An assert of the upper critical alarm of a CPU temperature sensor. -/
def sampleMsg : Message :=
  { sender := ":1.42", path := "/xyz/openbmc_project/sensors/temperature/CPU0",
    thresholdInterface := "xyz.openbmc_project.Sensor.Threshold.Critical",
    event := "CriticalAlarmHigh", value := some true }

/-- A notification of the soft shutdown threshold interface, whose alarm name
is not among the four the callback compares with. -/
def softShutdownMsg : Message :=
  { sender := ":1.42", path := "/xyz/openbmc_project/sensors/temperature/CPU0",
    thresholdInterface := "xyz.openbmc_project.Sensor.Threshold.SoftShutdown",
    event := "SoftShutdownAlarmHigh", value := some true }

theorem dedupStep_snd (S : AssertedEvents) (id : PathAndEvent) (a : Bool) :
    (dedupStep S id a).2 = (a != decide (id ∈ S)) := by
  by_cases h : id ∈ S <;> cases a <;> simp [dedupStep, h]

theorem dedupStep_mem_self (S : AssertedEvents) (id : PathAndEvent) (a : Bool) :
    id ∈ (dedupStep S id a).1 ↔ a = true := by
  by_cases h : id ∈ S <;> cases a <;> simp [dedupStep, h]

theorem dedupStep_mem_other (S : AssertedEvents) (id other : PathAndEvent) (a : Bool)
    (hne : id ≠ other) : other ∈ (dedupStep S id a).1 ↔ other ∈ S := by
  have hne2 : other ≠ id := fun h => hne h.symm
  by_cases h : id ∈ S <;> cases a <;> simp [dedupStep, h, hne2]

theorem callback_fst {D : Type} [Zero D] (ext : Extern D) (conn : Connection D)
    (S : AssertedEvents) (msg : Message) (a : Bool) (hv : msg.value = some a) :
    (thresholdEventMatcherCallback ext conn S msg).1 = (dedupStep S msg.pathAndEvent a).1 := by
  unfold thresholdEventMatcherCallback Message.pathAndEvent
  rw [hv]
  by_cases h : (dedupStep S (msg.path, msg.event) a).2 = true <;> simp [h]

theorem callback_snd_pass {D : Type} [Zero D] (ext : Extern D) (conn : Connection D)
    (S : AssertedEvents) (msg : Message) (a : Bool) (hv : msg.value = some a)
    (hp : (dedupStep S msg.pathAndEvent a).2 = true) :
    (thresholdEventMatcherCallback ext conn S msg).2 = logThresholdEvent ext conn msg a := by
  unfold Message.pathAndEvent at hp
  unfold thresholdEventMatcherCallback
  rw [hv]
  simp [hp]

theorem callback_snd_suppressed {D : Type} [Zero D] (ext : Extern D) (conn : Connection D)
    (S : AssertedEvents) (msg : Message) (a : Bool) (hv : msg.value = some a)
    (hp : (dedupStep S msg.pathAndEvent a).2 = false) :
    (thresholdEventMatcherCallback ext conn S msg).2 = [] := by
  unfold Message.pathAndEvent at hp
  unfold thresholdEventMatcherCallback
  rw [hv]
  simp [hp]

theorem callback_malformed {D : Type} [Zero D] (ext : Extern D) (conn : Connection D)
    (S : AssertedEvents) (msg : Message) (hv : msg.value = none) :
    thresholdEventMatcherCallback ext conn S msg =
      (S, [Effect.cerr "threshold event direction has invalid type\n"]) := by
  unfold thresholdEventMatcherCallback
  rw [hv]

/-- Claim C1: the check of the asserted events lets the notification proceed
exactly when `asserting` differs from whether the identity is in the set, and
afterwards the identity is in the set exactly when `asserting` is true; the
callback takes its new set from this step and goes on to the reads and the
record only when the step lets it. Hence, from any set: after an
assert a second assert is suppressed and a deassert proceeds; after a deassert a
second deassert is suppressed and an assert proceeds again. -/
theorem dedupStep_contract {D : Type} [Zero D] (ext : Extern D) (conn : Connection D)
    (S : AssertedEvents) (id : PathAndEvent) (asserting : Bool) :
    ((dedupStep S id asserting).2 = true ↔ asserting ≠ decide (id ∈ S)) ∧
    (id ∈ (dedupStep S id asserting).1 ↔ asserting = true) ∧
    (∀ sender iface : String,
      thresholdEventMatcherCallback ext conn S
        { sender := sender, path := id.1, thresholdInterface := iface, event := id.2,
          value := some asserting } =
        ((dedupStep S id asserting).1,
          if (dedupStep S id asserting).2 = true then
            logThresholdEvent ext conn
              { sender := sender, path := id.1, thresholdInterface := iface, event := id.2,
                value := some asserting } asserting
          else [])) ∧
    (dedupStep (S.erase id) id true).2 = true ∧
    (dedupStep (dedupStep S id true).1 id true).2 = false ∧
    (dedupStep (dedupStep S id true).1 id false).2 = true ∧
    (dedupStep (S.erase id) id false).2 = false ∧
    (dedupStep (dedupStep S id false).1 id false).2 = false ∧
    (dedupStep (dedupStep S id false).1 id true).2 = true := by
  refine ⟨?_, dedupStep_mem_self S id asserting, ?_, ?_, ?_, ?_, ?_, ?_, ?_⟩
  · rw [dedupStep_snd]
    cases asserting <;> by_cases h : id ∈ S <;> simp [h]
  · intro sender iface
    unfold thresholdEventMatcherCallback
    by_cases hp : (dedupStep S id asserting).2 = true <;> simp [hp]
  · simp [dedupStep_snd]
  · have h := (dedupStep_mem_self S id true).2 rfl
    simp [dedupStep_snd, h]
  · have h := (dedupStep_mem_self S id true).2 rfl
    simp [dedupStep_snd, h]
  · simp [dedupStep_snd]
  · have h : id ∉ (dedupStep S id false).1 := fun hm => by
      have := (dedupStep_mem_self S id false).1 hm
      exact Bool.noConfusion this
    simp [dedupStep_snd, h]
  · have h : id ∉ (dedupStep S id false).1 := fun hm => by
      have := (dedupStep_mem_self S id false).1 hm
      exact Bool.noConfusion this
    simp [dedupStep_snd, h]

/-! ## The effects of one callback -/

theorem records_append (xs ys : List Effect) : records (xs ++ ys) = records xs ++ records ys := by
  induction xs with
  | nil => rfl
  | cons x xs ih => cases x <;> simp [records, ih]

theorem calls_append (xs ys : List Effect) : calls (xs ++ ys) = calls xs ++ calls ys := by
  induction xs with
  | nil => rfl
  | cons x xs ih => cases x <;> simp [calls, ih]

theorem scaledByte_fst {D : Type} (ext : Extern D) (value max min : D) :
    (scaledByte ext value max min).1 =
      (match ext.getScaledIPMIValue value max min with
        | .ok b => b.val
        | .error _ => 0xFF) := by
  unfold scaledByte
  cases ext.getScaledIPMIValue value max min <;> rfl

theorem records_scaledByte {D : Type} (ext : Extern D) (value max min : D) :
    records (scaledByte ext value max min).2 = [] := by
  unfold scaledByte
  cases ext.getScaledIPMIValue value max min <;> rfl

theorem calls_scaledByte {D : Type} (ext : Extern D) (value max min : D) :
    calls (scaledByte ext value max min).2 = [] := by
  unfold scaledByte
  cases ext.getScaledIPMIValue value max min <;> rfl

theorem log_read1_fails {D : Type} [Zero D] (ext : Extern D) (conn : Connection D)
    (msg : Message) (a : Bool) (h1 : readSensorValue conn msg = none) :
    logThresholdEvent ext conn msg a =
      [Effect.call (getSensorValue msg),
       Effect.cerr ("error getting sensor value from " ++ msg.path ++ "\n")] := by
  unfold logThresholdEvent
  simp only [h1]

theorem log_read2_fails {D : Type} [Zero D] (ext : Extern D) (conn : Connection D)
    (msg : Message) (a : Bool) (sv : List (String × D))
    (h1 : readSensorValue conn msg = some sv) (h2 : readThreshold conn msg = none) :
    logThresholdEvent ext conn msg a =
      [Effect.call (getSensorValue msg)] ++
        (scaledByte ext (lookupDouble sv "Value") (lookupDouble sv "MaxValue")
          (lookupDouble sv "MinValue")).2 ++
        [Effect.call (getThreshold msg),
         Effect.cerr ("error getting sensor threshold from " ++ msg.path ++ "\n")] := by
  unfold logThresholdEvent
  simp only [h1, h2]

theorem log_reads_succeed {D : Type} [Zero D] (ext : Extern D) (conn : Connection D)
    (msg : Message) (a : Bool) (sv : List (String × D)) (tv : D)
    (h1 : readSensorValue conn msg = some sv) (h2 : readThreshold conn msg = some tv) :
    logThresholdEvent ext conn msg a =
      [Effect.call (getSensorValue msg)] ++
        (scaledByte ext (lookupDouble sv "Value") (lookupDouble sv "MaxValue")
          (lookupDouble sv "MinValue")).2 ++
        [Effect.call (getThreshold msg)] ++
        (scaledByte ext tv (lookupDouble sv "MaxValue") (lookupDouble sv "MinValue")).2 ++
        [Effect.selAddSystemRecord
          { message := journalMsg ext msg a (lookupDouble sv "Value") tv, path := msg.path,
            eventData :=
              [eventDataByte0 msg.event,
               (scaledByte ext (lookupDouble sv "Value") (lookupDouble sv "MaxValue")
                  (lookupDouble sv "MinValue")).1,
               (scaledByte ext tv (lookupDouble sv "MaxValue") (lookupDouble sv "MinValue")).1],
            assert := a, genId := ext.selBMCGenID }] := by
  unfold logThresholdEvent
  simp only [h1, h2]
  rfl

theorem records_log_reads_succeed {D : Type} [Zero D] (ext : Extern D) (conn : Connection D)
    (msg : Message) (a : Bool) (sv : List (String × D)) (tv : D)
    (h1 : readSensorValue conn msg = some sv) (h2 : readThreshold conn msg = some tv) :
    records (logThresholdEvent ext conn msg a) =
      [{ message := journalMsg ext msg a (lookupDouble sv "Value") tv, path := msg.path,
         eventData :=
           [eventDataByte0 msg.event,
            (scaledByte ext (lookupDouble sv "Value") (lookupDouble sv "MaxValue")
               (lookupDouble sv "MinValue")).1,
            (scaledByte ext tv (lookupDouble sv "MaxValue") (lookupDouble sv "MinValue")).1],
         assert := a, genId := ext.selBMCGenID }] := by
  rw [log_reads_succeed ext conn msg a sv tv h1 h2]
  simp [records_append, records_scaledByte, records]

/-- Claim C7: a notification that the check of the asserted events suppresses
performs nothing at all: no method call on the bus and no record for the log
writer (the list of effects is empty). -/
theorem suppressed_no_io {D : Type} [Zero D] (ext : Extern D) (conn : Connection D)
    (S : AssertedEvents) (msg : Message) (a : Bool) (hv : msg.value = some a)
    (hs : (dedupStep S msg.pathAndEvent a).2 = false) :
    (thresholdEventMatcherCallback ext conn S msg).2 = [] ∧
    calls (thresholdEventMatcherCallback ext conn S msg).2 = [] ∧
    records (thresholdEventMatcherCallback ext conn S msg).2 = [] := by
  rw [callback_snd_suppressed ext conn S msg a hv hs]
  exact ⟨rfl, rfl, rfl⟩

theorem suppressed_no_io_witness :
    sampleMsg.value = some true ∧
    (dedupStep {sampleMsg.pathAndEvent} sampleMsg.pathAndEvent true).2 = false ∧
    ((thresholdEventMatcherCallback sampleExtern sampleConn {sampleMsg.pathAndEvent}
        sampleMsg).2 = [] ∧
      calls (thresholdEventMatcherCallback sampleExtern sampleConn {sampleMsg.pathAndEvent}
        sampleMsg).2 = [] ∧
      records (thresholdEventMatcherCallback sampleExtern sampleConn {sampleMsg.pathAndEvent}
        sampleMsg).2 = []) :=
  ⟨rfl, by decide,
    suppressed_no_io sampleExtern sampleConn {sampleMsg.pathAndEvent} sampleMsg true rfl
      (by decide)⟩

/-- Claim C5: when a notification passes the check of the asserted events and
Read 1 fails, the only method call is Read 1 (Read 2 is not attempted), no
record is handed to the log writer, and the set after the callback is exactly
the one the check produced. -/
theorem read1_failure_abandons {D : Type} [Zero D] (ext : Extern D) (conn : Connection D)
    (S : AssertedEvents) (msg : Message) (a : Bool) (hv : msg.value = some a)
    (hp : (dedupStep S msg.pathAndEvent a).2 = true)
    (h1 : readSensorValue conn msg = none) :
    records (thresholdEventMatcherCallback ext conn S msg).2 = [] ∧
    calls (thresholdEventMatcherCallback ext conn S msg).2 = [getSensorValue msg] ∧
    getThreshold msg ∉ calls (thresholdEventMatcherCallback ext conn S msg).2 ∧
    (thresholdEventMatcherCallback ext conn S msg).1 = (dedupStep S msg.pathAndEvent a).1 := by
  rw [callback_snd_pass ext conn S msg a hv hp, log_read1_fails ext conn msg a h1,
    callback_fst ext conn S msg a hv]
  refine ⟨rfl, rfl, ?_, rfl⟩
  simp [calls, getThreshold, getSensorValue]

theorem read1_failure_abandons_witness :
    sampleMsg.value = some true ∧
    (dedupStep ∅ sampleMsg.pathAndEvent true).2 = true ∧
    readSensorValue deadConn sampleMsg = none ∧
    (records (thresholdEventMatcherCallback sampleExtern deadConn ∅ sampleMsg).2 = [] ∧
      calls (thresholdEventMatcherCallback sampleExtern deadConn ∅ sampleMsg).2 =
        [getSensorValue sampleMsg] ∧
      getThreshold sampleMsg ∉
        calls (thresholdEventMatcherCallback sampleExtern deadConn ∅ sampleMsg).2 ∧
      (thresholdEventMatcherCallback sampleExtern deadConn ∅ sampleMsg).1 =
        (dedupStep ∅ sampleMsg.pathAndEvent true).1) :=
  ⟨rfl, by decide, rfl,
    read1_failure_abandons sampleExtern deadConn ∅ sampleMsg true rfl (by decide) rfl⟩

/-- Claim C6: when a notification passes the check of the asserted events and
both reads succeed, exactly one record is handed to the log writer, whatever
the scaler does: its byte 1 is the scaler result for the current value, or
0xFF when that scaling throws, and its byte 2 is the scaler result for the
threshold value, or 0xFF when that scaling throws, each on its own. -/
theorem both_reads_one_record {D : Type} [Zero D] (ext : Extern D) (conn : Connection D)
    (S : AssertedEvents) (msg : Message) (a : Bool) (sv : List (String × D)) (tv : D)
    (hv : msg.value = some a) (hp : (dedupStep S msg.pathAndEvent a).2 = true)
    (h1 : readSensorValue conn msg = some sv) (h2 : readThreshold conn msg = some tv) :
    records (thresholdEventMatcherCallback ext conn S msg).2 =
      [{ message := journalMsg ext msg a (lookupDouble sv "Value") tv, path := msg.path,
         eventData :=
           [eventDataByte0 msg.event,
            (match ext.getScaledIPMIValue (lookupDouble sv "Value") (lookupDouble sv "MaxValue")
                (lookupDouble sv "MinValue") with
              | .ok b => b.val
              | .error _ => 0xFF),
            (match ext.getScaledIPMIValue tv (lookupDouble sv "MaxValue")
                (lookupDouble sv "MinValue") with
              | .ok b => b.val
              | .error _ => 0xFF)],
         assert := a, genId := ext.selBMCGenID }] := by
  rw [callback_snd_pass ext conn S msg a hv hp,
    records_log_reads_succeed ext conn msg a sv tv h1 h2, scaledByte_fst, scaledByte_fst]

theorem both_reads_one_record_witness :
    sampleMsg.value = some true ∧
    (dedupStep ∅ sampleMsg.pathAndEvent true).2 = true ∧
    readSensorValue sampleConn sampleMsg =
      some [("Value", 75), ("MinValue", 0), ("MaxValue", 100)] ∧
    readThreshold sampleConn sampleMsg = some 70 ∧
    records (thresholdEventMatcherCallback sampleExtern sampleConn ∅ sampleMsg).2 =
      [{ message := journalMsg sampleExtern sampleMsg true
           (lookupDouble [("Value", 75), ("MinValue", 0), ("MaxValue", 100)] "Value") 70,
         path := sampleMsg.path,
         eventData :=
           [eventDataByte0 sampleMsg.event,
            (match sampleExtern.getScaledIPMIValue
                (lookupDouble [("Value", 75), ("MinValue", 0), ("MaxValue", 100)] "Value")
                (lookupDouble [("Value", 75), ("MinValue", 0), ("MaxValue", 100)] "MaxValue")
                (lookupDouble [("Value", 75), ("MinValue", 0), ("MaxValue", 100)] "MinValue") with
              | .ok b => b.val
              | .error _ => 0xFF),
            (match sampleExtern.getScaledIPMIValue 70
                (lookupDouble [("Value", 75), ("MinValue", 0), ("MaxValue", 100)] "MaxValue")
                (lookupDouble [("Value", 75), ("MinValue", 0), ("MaxValue", 100)] "MinValue") with
              | .ok b => b.val
              | .error _ => 0xFF)],
         assert := true, genId := sampleExtern.selBMCGenID }] :=
  ⟨rfl, by decide, rfl, rfl,
    both_reads_one_record sampleExtern sampleConn ∅ sampleMsg true
      [("Value", 75), ("MinValue", 0), ("MaxValue", 100)] 70 rfl (by decide) rfl rfl⟩

theorem read2_failure_counterexample :
    sampleMsg.value = some true ∧
    (dedupStep ∅ sampleMsg.pathAndEvent true).2 = true ∧
    (readSensorValue noThresholdConn sampleMsg).isSome = true ∧
    readThreshold noThresholdConn sampleMsg = none ∧
    records (thresholdEventMatcherCallback sampleExtern noThresholdConn ∅ sampleMsg).2 = [] ∧
    ¬ ∃ r, r ∈ records (thresholdEventMatcherCallback sampleExtern noThresholdConn ∅ sampleMsg).2 ∧
        r.eventData.get? 2 = some 0xFF := by
  refine ⟨rfl, by decide, rfl, rfl, by decide, ?_⟩
  have h : records (thresholdEventMatcherCallback sampleExtern noThresholdConn ∅ sampleMsg).2
      = [] := by decide
  rw [h]
  simp

/-- Claim C2, amended: when a notification passes the check of the asserted
events, Read 1 succeeds and Read 2 fails, the callback writes a diagnostic and
returns: both reads were attempted, no record is handed to the log writer, and
the set stays as the check left it. -/
theorem read2_failure_abandons {D : Type} [Zero D] (ext : Extern D) (conn : Connection D)
    (S : AssertedEvents) (msg : Message) (a : Bool) (sv : List (String × D))
    (hv : msg.value = some a) (hp : (dedupStep S msg.pathAndEvent a).2 = true)
    (h1 : readSensorValue conn msg = some sv) (h2 : readThreshold conn msg = none) :
    records (thresholdEventMatcherCallback ext conn S msg).2 = [] ∧
    calls (thresholdEventMatcherCallback ext conn S msg).2 =
      [getSensorValue msg, getThreshold msg] ∧
    Effect.cerr ("error getting sensor threshold from " ++ msg.path ++ "\n") ∈
      (thresholdEventMatcherCallback ext conn S msg).2 ∧
    (thresholdEventMatcherCallback ext conn S msg).1 = (dedupStep S msg.pathAndEvent a).1 := by
  rw [callback_snd_pass ext conn S msg a hv hp, log_read2_fails ext conn msg a sv h1 h2,
    callback_fst ext conn S msg a hv]
  refine ⟨?_, ?_, ?_, rfl⟩
  · simp [records_append, records_scaledByte, records]
  · simp [calls_append, calls_scaledByte, calls]
  · simp

theorem read2_failure_abandons_witness :
    sampleMsg.value = some true ∧
    (dedupStep ∅ sampleMsg.pathAndEvent true).2 = true ∧
    readSensorValue noThresholdConn sampleMsg =
      some [("Value", 75), ("MinValue", 0), ("MaxValue", 100)] ∧
    readThreshold noThresholdConn sampleMsg = none ∧
    (records (thresholdEventMatcherCallback sampleExtern noThresholdConn ∅ sampleMsg).2 = [] ∧
      calls (thresholdEventMatcherCallback sampleExtern noThresholdConn ∅ sampleMsg).2 =
        [getSensorValue sampleMsg, getThreshold sampleMsg] ∧
      Effect.cerr ("error getting sensor threshold from " ++ sampleMsg.path ++ "\n") ∈
        (thresholdEventMatcherCallback sampleExtern noThresholdConn ∅ sampleMsg).2 ∧
      (thresholdEventMatcherCallback sampleExtern noThresholdConn ∅ sampleMsg).1 =
        (dedupStep ∅ sampleMsg.pathAndEvent true).1) :=
  ⟨rfl, by decide, rfl, rfl,
    read2_failure_abandons sampleExtern noThresholdConn ∅ sampleMsg true
      [("Value", 75), ("MinValue", 0), ("MaxValue", 100)] rfl (by decide) rfl rfl⟩

theorem eventDataByte0_unrecognised (event : String)
    (h1 : event ≠ "CriticalAlarmLow") (h2 : event ≠ "WarningAlarmLow")
    (h3 : event ≠ "WarningAlarmHigh") (h4 : event ≠ "CriticalAlarmHigh") :
    eventDataByte0 event = 0xFF := by
  unfold eventDataByte0
  simp only [h1, h2, h3, h4, if_false]
  decide

theorem unrecognised_event_counterexample :
    softShutdownMsg.event ≠ "CriticalAlarmLow" ∧ softShutdownMsg.event ≠ "WarningAlarmLow" ∧
    softShutdownMsg.event ≠ "WarningAlarmHigh" ∧ softShutdownMsg.event ≠ "CriticalAlarmHigh" ∧
    records (thresholdEventMatcherCallback sampleExtern sampleConn ∅ softShutdownMsg).2 =
      [{ message := "CPU0 asserted SoftShutdownAlarmHigh. Reading=75 Threshold=70",
         path := "/xyz/openbmc_project/sensors/temperature/CPU0",
         eventData := [0xFF, 191, 178], assert := true, genId := 0x20 }] := by
  decide

/-- Claim C3, amended: a notification whose event name is not one of the four
recognised names is not rejected. Byte 0 of the event data keeps its initial
0xFF (or-ing the trigger bits changes nothing), and when the notification passes
the check of the asserted events and both reads succeed, exactly one record is
handed to the log writer, with byte 0 equal to 0xFF. -/
theorem unrecognised_event_logged {D : Type} [Zero D] (ext : Extern D) (conn : Connection D)
    (S : AssertedEvents) (msg : Message) (a : Bool) (sv : List (String × D)) (tv : D)
    (hn1 : msg.event ≠ "CriticalAlarmLow") (hn2 : msg.event ≠ "WarningAlarmLow")
    (hn3 : msg.event ≠ "WarningAlarmHigh") (hn4 : msg.event ≠ "CriticalAlarmHigh")
    (hv : msg.value = some a) (hp : (dedupStep S msg.pathAndEvent a).2 = true)
    (h1 : readSensorValue conn msg = some sv) (h2 : readThreshold conn msg = some tv) :
    eventDataByte0 msg.event = 0xFF ∧
    ∃ r, records (thresholdEventMatcherCallback ext conn S msg).2 = [r] ∧
      r.eventData.get? 0 = some 0xFF ∧ r.eventData.length = 3 ∧ r.assert = a ∧
      r.path = msg.path := by
  have hb := eventDataByte0_unrecognised msg.event hn1 hn2 hn3 hn4
  refine ⟨hb, ?_⟩
  rw [callback_snd_pass ext conn S msg a hv hp,
    records_log_reads_succeed ext conn msg a sv tv h1 h2]
  exact ⟨_, rfl, by simp [hb], rfl, rfl, rfl⟩

theorem unrecognised_event_logged_witness :
    softShutdownMsg.event ≠ "CriticalAlarmLow" ∧ softShutdownMsg.event ≠ "WarningAlarmLow" ∧
    softShutdownMsg.event ≠ "WarningAlarmHigh" ∧ softShutdownMsg.event ≠ "CriticalAlarmHigh" ∧
    softShutdownMsg.value = some true ∧
    (dedupStep ∅ softShutdownMsg.pathAndEvent true).2 = true ∧
    readSensorValue sampleConn softShutdownMsg =
      some [("Value", 75), ("MinValue", 0), ("MaxValue", 100)] ∧
    readThreshold sampleConn softShutdownMsg = some 70 ∧
    (eventDataByte0 softShutdownMsg.event = 0xFF ∧
      ∃ r, records (thresholdEventMatcherCallback sampleExtern sampleConn ∅ softShutdownMsg).2
          = [r] ∧
        r.eventData.get? 0 = some 0xFF ∧ r.eventData.length = 3 ∧ r.assert = true ∧
        r.path = softShutdownMsg.path) :=
  ⟨by decide, by decide, by decide, by decide, rfl, by decide, rfl, rfl,
    unrecognised_event_logged sampleExtern sampleConn ∅ softShutdownMsg true
      [("Value", 75), ("MinValue", 0), ("MaxValue", 100)] 70
      (by decide) (by decide) (by decide) (by decide) rfl (by decide) rfl rfl⟩

theorem records_log_byte0 {D : Type} [Zero D] (ext : Extern D) (conn : Connection D)
    (msg : Message) (a : Bool) (r : SelRecord)
    (hr : r ∈ records (logThresholdEvent ext conn msg a)) :
    r.eventData.get? 0 = some (eventDataByte0 msg.event) ∧ r.eventData.length = 3 := by
  cases h1 : readSensorValue conn msg with
  | none =>
    rw [log_read1_fails ext conn msg a h1] at hr
    simp [records] at hr
  | some sv =>
    cases h2 : readThreshold conn msg with
    | none =>
      rw [log_read2_fails ext conn msg a sv h1 h2] at hr
      simp [records_append, records_scaledByte, records] at hr
    | some tv =>
      rw [records_log_reads_succeed ext conn msg a sv tv h1 h2] at hr
      simp at hr
      subst hr
      simp

theorem records_callback_byte0 {D : Type} [Zero D] (ext : Extern D) (conn : Connection D)
    (S : AssertedEvents) (msg : Message) (r : SelRecord)
    (hr : r ∈ records (thresholdEventMatcherCallback ext conn S msg).2) :
    r.eventData.get? 0 = some (eventDataByte0 msg.event) ∧ r.eventData.length = 3 := by
  cases hv : msg.value with
  | none =>
    rw [callback_malformed ext conn S msg hv] at hr
    simp [records] at hr
  | some a =>
    cases hp : (dedupStep S msg.pathAndEvent a).2 with
    | false =>
      rw [callback_snd_suppressed ext conn S msg a hv hp] at hr
      simp [records] at hr
    | true =>
      rw [callback_snd_pass ext conn S msg a hv hp] at hr
      exact records_log_byte0 ext conn msg a r hr

/-- Claim C4: in every record handed to the log writer for one of the four
recognised event names, byte 0 of the 3-byte payload is the offset of the name
in bits 0-3 with exactly bits 6 and 4 set on top: 0x50 for WarningAlarmLow,
0x52 for CriticalAlarmLow, 0x57 for WarningAlarmHigh, 0x59 for
CriticalAlarmHigh, whatever the assert flag, the set, the bus answers and the
scaler. -/
theorem recognised_event_byte0 {D : Type} [Zero D] (ext : Extern D) (conn : Connection D)
    (S : AssertedEvents) (msg : Message) (r : SelRecord)
    (hr : r ∈ records (thresholdEventMatcherCallback ext conn S msg).2) :
    r.eventData.length = 3 ∧
    (msg.event = "WarningAlarmLow" → r.eventData.get? 0 = some 0x50) ∧
    (msg.event = "CriticalAlarmLow" → r.eventData.get? 0 = some 0x52) ∧
    (msg.event = "WarningAlarmHigh" → r.eventData.get? 0 = some 0x57) ∧
    (msg.event = "CriticalAlarmHigh" → r.eventData.get? 0 = some 0x59) ∧
    (0x50 = thresholdEventOffsets.lowerNonCritGoingLow.toUInt8 ||| (1 <<< 6 ||| 1 <<< 4) ∧
      0x52 = thresholdEventOffsets.lowerCritGoingLow.toUInt8 ||| (1 <<< 6 ||| 1 <<< 4) ∧
      0x57 = thresholdEventOffsets.upperNonCritGoingHigh.toUInt8 ||| (1 <<< 6 ||| 1 <<< 4) ∧
      0x59 = thresholdEventOffsets.upperCritGoingHigh.toUInt8 ||| (1 <<< 6 ||| 1 <<< 4)) := by
  obtain ⟨h0, hlen⟩ := records_callback_byte0 ext conn S msg r hr
  refine ⟨hlen, ?_, ?_, ?_, ?_, by decide⟩
  · intro he
    rw [h0, he]
    decide
  · intro he
    rw [h0, he]
    decide
  · intro he
    rw [h0, he]
    decide
  · intro he
    rw [h0, he]
    decide

theorem recognised_event_byte0_witness :
    ({ message := "CPU0 asserted CriticalAlarmHigh. Reading=75 Threshold=70",
       path := "/xyz/openbmc_project/sensors/temperature/CPU0",
       eventData := [0x59, 191, 178], assert := true, genId := 0x20 } : SelRecord) ∈
      records (thresholdEventMatcherCallback sampleExtern sampleConn ∅ sampleMsg).2 ∧
    sampleMsg.event = "CriticalAlarmHigh" ∧
    ([0x59, 191, 178] : List Nat).get? 0 = some 0x59 :=
  ⟨by decide, rfl,
    (recognised_event_byte0 sampleExtern sampleConn ∅ sampleMsg
      { message := "CPU0 asserted CriticalAlarmHigh. Reading=75 Threshold=70",
        path := "/xyz/openbmc_project/sensors/temperature/CPU0",
        eventData := [0x59, 191, 178], assert := true, genId := 0x20 }
      (by decide)).2.2.2.2.1 rfl⟩

/-! ## Claims on sequences of notifications -/

theorem callback_mem_same {D : Type} [Zero D] (ext : Extern D) (conn : Connection D)
    (S : AssertedEvents) (msg : Message) (a : Bool) (hv : msg.value = some a) :
    msg.pathAndEvent ∈ (thresholdEventMatcherCallback ext conn S msg).1 ↔ a = true := by
  rw [callback_fst ext conn S msg a hv]
  exact dedupStep_mem_self S msg.pathAndEvent a

theorem callback_mem_other {D : Type} [Zero D] (ext : Extern D) (conn : Connection D)
    (S : AssertedEvents) (msg : Message) (id : PathAndEvent) (hne : msg.pathAndEvent ≠ id) :
    id ∈ (thresholdEventMatcherCallback ext conn S msg).1 ↔ id ∈ S := by
  cases hv : msg.value with
  | none => rw [callback_malformed ext conn S msg hv]
  | some a =>
    rw [callback_fst ext conn S msg a hv]
    exact dedupStep_mem_other S msg.pathAndEvent id a hne

theorem run_mem_iff {D : Type} [Zero D] (ext : Extern D) (id : PathAndEvent)
    (inputs : List (Message × Connection D)) :
    ∀ S : AssertedEvents, id ∈ (run ext S inputs).1 ↔
      (lastAssertFlag id (inputs.map Prod.fst) = some true ∨
        (lastAssertFlag id (inputs.map Prod.fst) = none ∧ id ∈ S)) := by
  induction inputs with
  | nil => intro S; simp [run, lastAssertFlag]
  | cons p rest ih =>
    intro S
    obtain ⟨msg, conn⟩ := p
    have hrun : (run ext S ((msg, conn) :: rest)).1 =
        (run ext (thresholdEventMatcherCallback ext conn S msg).1 rest).1 := rfl
    rw [hrun, ih]
    simp only [List.map_cons, lastAssertFlag]
    cases hl : lastAssertFlag id (rest.map Prod.fst) with
    | some b => simp
    | none =>
      by_cases hid : msg.pathAndEvent = id
      · cases hv : msg.value with
        | none =>
          rw [callback_malformed ext conn S msg hv]
          simp [hid]
        | some a =>
          have hm := callback_mem_same ext conn S msg a hv
          rw [hid] at hm
          simp [hid, hm]
      · have hm := callback_mem_other ext conn S msg id hid
        simp [hid, hm]

/-- Claim C8: starting from the empty set, after any finite sequence of
notifications, whatever the identities, the malformed notifications among them
and the answers of the bus, an identity is in the set of asserted events if and
only if the most recent boolean-valued notification for it was an assert. -/
theorem assertedEvents_invariant {D : Type} [Zero D] (ext : Extern D) (id : PathAndEvent)
    (inputs : List (Message × Connection D)) :
    id ∈ (run ext ∅ inputs).1 ↔ lastAssertFlag id (inputs.map Prod.fst) = some true := by
  rw [run_mem_iff ext id inputs ∅]
  simp

theorem scale_ok (value min max : ℚ) (h : min < max) :
    scale value min max =
      .ok (Int.toNat (Max.max 0 (Min.min 255 (round ((value - min) / (max - min) * 255))))) := by
  have hne : max ≠ min := ne_of_gt h
  unfold scale
  rw [if_neg hne]

theorem scale_spec_scenario : scale 75 0 100 = .ok 191 ∧ scale 70 0 100 = .ok 179 := by
  constructor
  · rw [scale_ok 75 0 100 (by norm_num)]
    have hr : round ((75 - 0 : ℚ) / (100 - 0) * 255) = 191 := by
      rw [round_eq, Int.floor_eq_iff]
      norm_num
    rw [hr]
    rfl
  · rw [scale_ok 70 0 100 (by norm_num)]
    have hr : round ((70 - 0 : ℚ) / (100 - 0) * 255) = 179 := by
      rw [round_eq, Int.floor_eq_iff]
      norm_num
    rw [hr]
    rfl

end SelLogger
